import Mathlib

/-!
Verification of the blobcheck storage-parameter discovery engine and
validation orchestrator, shallowly embedded from the Go sources
(`internal/blob/s3.go`, `internal/validate/validate.go`,
`internal/validate/backup.go`).

A parameter set (Go `Params`, a `map[string]string`) is embedded as an
association list of key/value pairs with distinct keys; Go map assignment
becomes `setParam` (replace-or-append).  All functions below are
translated from the Go source; the sole exception is the iteration order
of `Params.Iter`, whose defining file is not part of the sources and is
modelled from the spec (see `paramsIter`).
-/

/-- Parameter sets: association lists from parameter name to string value,
mirroring Go `type Params map[string]string`.  The list order is a
representation artifact; Go map semantics are recovered through
`getParam`/`setParam`. -/
abbrev Params := List (String × String)

/-- `AccountParam` from `internal/blob/s3.go`: the AWS access key ID. -/
def AccountParam : String := "AWS_ACCESS_KEY_ID"

/-- `SecretParam`: the AWS secret access key. -/
def SecretParam : String := "AWS_SECRET_ACCESS_KEY"

/-- `TokenParam`: the AWS session token. -/
def TokenParam : String := "AWS_SESSION_TOKEN"

/-- `EndPointParam`: the AWS endpoint. -/
def EndPointParam : String := "AWS_ENDPOINT"

/-- `RegionParam`: the AWS region. -/
def RegionParam : String := "AWS_REGION"

/-- `UsePathStyleParam`: the AWS use-path-style toggle. -/
def UsePathStyleParam : String := "AWS_USE_PATH_STYLE"

/-- `SkipChecksum`: the AWS skip-checksum toggle. -/
def SkipChecksum : String := "AWS_SKIP_CHECKSUM"

/-- `SkipTLSVerify`: the AWS skip-TLS-verify toggle. -/
def SkipTLSVerify : String := "AWS_SKIP_TLS_VERIFY"

/-- `ValidParams` from `internal/blob/s3.go`: the recognized parameter keys. -/
def ValidParams : List String :=
  [AccountParam, SecretParam, TokenParam, EndPointParam,
   RegionParam, UsePathStyleParam, SkipChecksum, SkipTLSVerify]

/-- `ObfuscatedParams`: the parameters whose values are obfuscated for display. -/
def ObfuscatedParams : List String := [SecretParam, TokenParam]

/-- `Obfuscated`: the fixed marker used in place of sensitive values. -/
def Obfuscated : String := "******"

/-- Go map read `m[k]` (with presence): first binding of `k` in the list. -/
def getParam : Params → String → Option String
  | [], _ => none
  | kv :: rest, k => if kv.1 = k then some kv.2 else getParam rest k

/-- Go map assignment `m[k] = v`: replace the existing binding in place, or
append a new one. -/
def setParam : Params → String → String → Params
  | [], k, v => [(k, v)]
  | kv :: rest, k, v => if kv.1 = k then (k, v) :: rest else kv :: setParam rest k v

/-- `s3Store.addParam` from `internal/blob/s3.go`: set the key only when it is
recognized (the Go version additionally returns an error for an invalid key,
which `candidateConfigs` discards). -/
def addParam (m : Params) (k v : String) : Params :=
  if k ∈ ValidParams then setParam m k v else m

/-- The hard-coded toggle combinations of `s3Store.candidateConfigs`
(`internal/blob/s3.go` lines 149-157), baseline first. -/
def combos : List (List String) :=
  [[],
   [SkipChecksum],
   [SkipTLSVerify],
   [UsePathStyleParam],
   [UsePathStyleParam, SkipChecksum],
   [UsePathStyleParam, SkipTLSVerify],
   [UsePathStyleParam, SkipTLSVerify, SkipChecksum]]

/-- `s3Store.candidateConfigs`: for each combination, clone the base
parameter set and force each toggle of the combination to the value
`"true"`. -/
def candidateConfigs (base : Params) : List Params :=
  combos.map (fun combo => combo.foldl (fun m opt => addParam m opt "true") base)

/-- `s3Store.Params` (the obfuscated view, spec name `obfuscatedView`):
clone the parameter set, replacing the value of every key listed in
`ObfuscatedParams` by the fixed marker.  The Go method operates on
`maps.Clone` of the receiver, so the original set is never mutated; the
embedding is a pure function of the input. -/
def obfuscatedView (p : Params) : Params :=
  p.map (fun kv => if kv.1 ∈ ObfuscatedParams then (kv.1, Obfuscated) else kv)

theorem getParam_setParam_self (m : Params) (k v : String) :
    getParam (setParam m k v) k = some v := by
  induction m with
  | nil => simp [setParam, getParam]
  | cons kv rest ih =>
      by_cases h : kv.1 = k
      · simp [setParam, h, getParam]
      · simp [setParam, h, getParam, ih]

theorem getParam_setParam_ne (m : Params) (k v k2 : String) (h : k2 ≠ k) :
    getParam (setParam m k v) k2 = getParam m k2 := by
  have hne : k ≠ k2 := Ne.symm h
  induction m with
  | nil => simp [setParam, getParam, hne]
  | cons kv rest ih =>
      by_cases hk : kv.1 = k
      · have hkv : kv.1 ≠ k2 := hk ▸ hne
        simp [setParam, hk, getParam, hne, hkv]
      · by_cases hk2 : kv.1 = k2
        · simp only [setParam, if_neg hk]
          simp [getParam, hk2]
        · simp only [setParam, if_neg hk]
          simp [getParam, hk2, ih]

/-- C8: the obfuscated view keeps the key set of the original parameter set,
replaces the values of the secret and session-token keys (when present) by
the fixed marker, and leaves every other value unchanged.  The view is a
pure function of its input (the Go method works on a clone), so the
original set is never mutated. -/
theorem obfuscatedView_props (p : Params) :
    (obfuscatedView p).map Prod.fst = p.map Prod.fst
    ∧ (∀ k, k ∈ ObfuscatedParams → k ∈ p.map Prod.fst →
        getParam (obfuscatedView p) k = some Obfuscated)
    ∧ (∀ k, k ∉ ObfuscatedParams → getParam (obfuscatedView p) k = getParam p k) := by
  induction p with
  | nil =>
      refine ⟨rfl, ?_, ?_⟩
      · intro k _ hmem; simp at hmem
      · intro k _; rfl
  | cons kv rest ih =>
      obtain ⟨ih1, ih2, ih3⟩ := ih
      by_cases h : kv.1 ∈ ObfuscatedParams
      · refine ⟨?_, ?_, ?_⟩
        · simpa [obfuscatedView, h] using ih1
        · intro k hk hmem
          by_cases hkk : kv.1 = k
          · have h2 : k ∈ ObfuscatedParams := hkk ▸ h
            simp [obfuscatedView, h, getParam, hkk, h2]
          · have : k ∈ rest.map Prod.fst := by
              simpa [hkk, Ne.symm hkk] using hmem
            simpa [obfuscatedView, h, getParam, hkk] using ih2 k hk this
        · intro k hk
          have hkk : kv.1 ≠ k := fun hh => hk (hh ▸ h)
          simpa [obfuscatedView, h, getParam, hkk] using ih3 k hk
      · refine ⟨?_, ?_, ?_⟩
        · simpa [obfuscatedView, h] using ih1
        · intro k hk hmem
          have hkk : kv.1 ≠ k := fun hh => h (hh ▸ hk)
          have : k ∈ rest.map Prod.fst := by
            simpa [hkk, Ne.symm hkk] using hmem
          simpa [obfuscatedView, h, getParam, hkk] using ih2 k hk this
        · intro k hk
          by_cases hkk : kv.1 = k
          · simp [obfuscatedView, h, getParam, hkk, hk]
          · simpa [obfuscatedView, h, getParam, hkk] using ih3 k hk

/-- Witness for `obfuscatedView_props` at a concrete parameter set. -/
theorem obfuscatedView_props_witness :
    getParam (obfuscatedView [(SecretParam, "SECRET..."), (AccountParam, "AKIA...")])
      SecretParam = some Obfuscated :=
  (obfuscatedView_props [(SecretParam, "SECRET..."), (AccountParam, "AKIA...")]).2.1
    SecretParam (by decide) (by decide)

/-- C2: evaluating `candidateConfigs` on the empty base parameter set shows it
produces 7 candidates, not the 8 of the full power set: no candidate enables
skip-checksum together with skip-tls-verify without also enabling
use-path-style, i.e. the pair combination is missing.  The package test
`TestCandidateConfigs` expects 8 power-set candidates, so the code
contradicts its own tests. -/
theorem candidateConfigs_missing_pair :
    (candidateConfigs []).length = 7
    ∧ ((candidateConfigs []).all fun c =>
        !(getParam c SkipChecksum == some "true"
          && getParam c SkipTLSVerify == some "true"
          && getParam c UsePathStyleParam == none)) = true := by
  constructor
  · decide
  · decide

/-- The base parameter set of the failing `TestCandidateConfigs` case
named toggle: the skip-checksum toggle is already set in the base. -/
def toggleBase : Params := [(RegionParam, "eu-central-1"), (SkipChecksum, "true")]

/-- C3: with skip-checksum already `"true"` in the base set, every candidate
generated by `candidateConfigs` still carries skip-checksum as `"true"`; no
candidate carries it as `"false"`.  The package test expects four candidates
with the value `"false"`, so the code contradicts its own tests. -/
theorem candidateConfigs_no_false_toggle :
    ((candidateConfigs toggleBase).all fun c =>
        getParam c SkipChecksum == some "true") = true
    ∧ ((candidateConfigs toggleBase).all fun c =>
        !(getParam c SkipChecksum == some "false")) = true := by
  constructor
  · decide
  · decide

/-- The fixed probe object content, constant `content` in `internal/blob/s3.go`. -/
def content : String := "dummy_data"

/-- The error produced by `try` when the read-back content differs from what
was written (Go `fmt.Errorf` with `%q` verbs). -/
def mismatchMsg (got : String) : String :=
  "unexpected content: got \"" ++ got ++ "\", want \"" ++ content ++ "\""

/-- The error produced by `try` when every candidate has been exhausted,
naming the destination (Go `fmt.Errorf` with a `%q` verb on `s.dest`). -/
def storageUnreachableMsg (dest : String) : String :=
  "unable to connect to storage provider \"" ++ dest ++ "\""

/-- Outcome of the network operations one iteration of `s3Store.try` performs
for a candidate.  `configFail` models `config.LoadDefaultConfig` failing
(before any storage operation); `listFail`, `putFail`, `getFail` and
`readFail` model the list-objects, put-object, get-object and body-read
calls failing; `readOk got deleteErr` models a successful read returning
`got` followed by the delete call (failing with `deleteErr` when `some`). -/
inductive ProbeOutcome where
  | configFail (e : String)
  | listFail (e : String)
  | putFail (e : String)
  | getFail (e : String)
  | readFail (e : String)
  | readOk (got : String) (deleteErr : Option String)
deriving DecidableEq

/-- An outcome the `try` loop survives by moving on to the next candidate
(`continue` in the Go source): a list-objects or put-object failure. -/
def isNonFatal : ProbeOutcome → Bool
  | .listFail _ => true
  | .putFail _ => true
  | _ => false

/-- The candidate loop of `s3Store.try` (`internal/blob/s3.go` lines 219-319)
over candidates paired with their probe outcomes.  Returns the result of
`try` together with the number of probe attempts issued (iterations whose
storage operations were reached).  A list or put failure logs and continues;
a get failure, body-read failure, content mismatch or delete failure returns
the error immediately; a fully successful probe returns the candidate.
When the pairing list is exhausted, the destination-naming error is
returned. -/
def runTry (dest : String) : List (Params × ProbeOutcome) → Except String Params × Nat
  | [] => (.error (storageUnreachableMsg dest), 0)
  | (cand, o) :: rest =>
    match o with
    | .configFail e => (.error e, 0)
    | .listFail _ =>
        let r := runTry dest rest
        (r.1, r.2 + 1)
    | .putFail _ =>
        let r := runTry dest rest
        (r.1, r.2 + 1)
    | .getFail e => (.error e, 1)
    | .readFail e => (.error e, 1)
    | .readOk got dErr =>
        if got = content then
          match dErr with
          | some e => (.error e, 1)
          | none => (.ok cand, 1)
        else (.error (mismatchMsg got), 1)

/-- `s3Store.try`: iterate `candidateConfigs` in order under the given
per-candidate probe outcomes. -/
def s3Try (base : Params) (dest : String) (outs : List ProbeOutcome) :
    Except String Params × Nat :=
  runTry dest ((candidateConfigs base).zip outs)

theorem runTry_skip (dest : String) (z : Params × ProbeOutcome)
    (zs : List (Params × ProbeOutcome)) (h : isNonFatal z.2 = true) :
    runTry dest (z :: zs) = ((runTry dest zs).1, (runTry dest zs).2 + 1) := by
  obtain ⟨c, o⟩ := z
  cases o <;> simp_all [runTry, isNonFatal]

theorem runTry_append_nonFatal (dest : String) (zs1 zs2 : List (Params × ProbeOutcome))
    (h : ∀ z ∈ zs1, isNonFatal z.2 = true) :
    runTry dest (zs1 ++ zs2) = ((runTry dest zs2).1, (runTry dest zs2).2 + zs1.length) := by
  induction zs1 with
  | nil => simp
  | cons z zs ih =>
      have hz : isNonFatal z.2 = true := h z (by simp)
      have hrest : ∀ z2 ∈ zs, isNonFatal z2.2 = true := fun z2 hz2 => h z2 (by simp [hz2])
      rw [List.cons_append, runTry_skip dest z _ hz, ih hrest]
      simp [Nat.add_assoc]

/-- Decomposition of `s3Try`: when the first `pre.length` probes fail
non-fatally, the run is determined by the remaining candidates, with the
attempt counter advanced by `pre.length`. -/
theorem s3Try_decompose (base : Params) (dest : String) (pre post : List ProbeOutcome)
    (o : ProbeOutcome) (hnf : ∀ x ∈ pre, isNonFatal x = true)
    (hk : pre.length < (candidateConfigs base).length) :
    s3Try base dest (pre ++ o :: post)
      = ((runTry dest (((candidateConfigs base).get ⟨pre.length, hk⟩, o) ::
            ((candidateConfigs base).drop (pre.length + 1)).zip post)).1,
         (runTry dest (((candidateConfigs base).get ⟨pre.length, hk⟩, o) ::
            ((candidateConfigs base).drop (pre.length + 1)).zip post)).2 + pre.length) := by
  have hle : pre.length ≤ (candidateConfigs base).length := Nat.le_of_lt hk
  have htake : ((candidateConfigs base).take pre.length).length = pre.length := by
    simp [List.length_take, hle]
  have hsplit : candidateConfigs base
      = (candidateConfigs base).take pre.length ++
        ((candidateConfigs base).get ⟨pre.length, hk⟩ ::
          (candidateConfigs base).drop (pre.length + 1)) := by
    conv_lhs => rw [← List.take_append_drop pre.length (candidateConfigs base)]
    rw [List.drop_eq_getElem_cons hk]
    rfl
  rw [s3Try]
  conv_lhs => rw [hsplit]
  rw [List.zip_append htake, List.zip_cons_cons,
    runTry_append_nonFatal dest _ _ (fun z hz => hnf z.2 (List.of_mem_zip hz).2)]
  rw [List.length_zip, htake]
  simp

/-- Helper: if the first `pre.length` probes fail non-fatally and the next
probe succeeds fully, `try` returns that candidate after `pre.length + 1`
attempts, regardless of any later outcomes. -/
theorem s3Try_success_at (base : Params) (dest : String) (pre post : List ProbeOutcome)
    (hnf : ∀ x ∈ pre, isNonFatal x = true)
    (hk : pre.length < (candidateConfigs base).length) :
    s3Try base dest (pre ++ ProbeOutcome.readOk content none :: post)
      = (.ok ((candidateConfigs base).get ⟨pre.length, hk⟩), pre.length + 1) := by
  rw [s3Try_decompose base dest pre post _ hnf hk]
  simp [runTry, Nat.add_comm]

/-- C1 (amended): for every base parameter set and outcome sequence in which
the probe of candidate `pre.length` (0-based) is the first to succeed and
every earlier probe fails non-fatally (list-objects or put-object failure),
`try` returns exactly that candidate and issues exactly `pre.length + 1`
probe attempts — none after the success. -/
theorem try_first_success (base : Params) (dest : String) (pre post : List ProbeOutcome)
    (hnf : ∀ x ∈ pre, isNonFatal x = true)
    (hk : pre.length < (candidateConfigs base).length) :
    s3Try base dest (pre ++ ProbeOutcome.readOk content none :: post)
      = (.ok ((candidateConfigs base).get ⟨pre.length, hk⟩), pre.length + 1) :=
  s3Try_success_at base dest pre post hnf hk

/-- Witness for `try_first_success`: the first probe fails on list-objects,
the second succeeds; the second candidate is returned after 2 attempts. -/
theorem try_first_success_witness :
    s3Try [] "bucket" [ProbeOutcome.listFail "x", ProbeOutcome.readOk content none]
      = (.ok ((candidateConfigs []).get ⟨1, by decide⟩), 2) :=
  try_first_success [] "bucket" [ProbeOutcome.listFail "x"] [] (by decide) (by decide)

/-- C1 counterexample: a sequence in which the second candidate probe is the
first to succeed, but the first probe fails with a read-back mismatch: `try`
aborts with the mismatch error after 1 attempt instead of returning the
second candidate after 2 attempts, refuting the claim over arbitrary
outcome sequences. -/
theorem try_first_success_cex :
    ([ProbeOutcome.readOk "bad" none, ProbeOutcome.readOk content none,
      ProbeOutcome.listFail "x", ProbeOutcome.listFail "x", ProbeOutcome.listFail "x",
      ProbeOutcome.listFail "x", ProbeOutcome.listFail "x"].get? 0
        = some (ProbeOutcome.readOk "bad" none))
    ∧ ([ProbeOutcome.readOk "bad" none, ProbeOutcome.readOk content none,
        ProbeOutcome.listFail "x", ProbeOutcome.listFail "x", ProbeOutcome.listFail "x",
        ProbeOutcome.listFail "x", ProbeOutcome.listFail "x"].get? 1
        = some (ProbeOutcome.readOk content none))
    ∧ s3Try [] "bucket"
        [ProbeOutcome.readOk "bad" none, ProbeOutcome.readOk content none,
         ProbeOutcome.listFail "x", ProbeOutcome.listFail "x", ProbeOutcome.listFail "x",
         ProbeOutcome.listFail "x", ProbeOutcome.listFail "x"]
        = (.error (mismatchMsg "bad"), 1)
    ∧ s3Try [] "bucket"
        [ProbeOutcome.readOk "bad" none, ProbeOutcome.readOk content none,
         ProbeOutcome.listFail "x", ProbeOutcome.listFail "x", ProbeOutcome.listFail "x",
         ProbeOutcome.listFail "x", ProbeOutcome.listFail "x"]
        ≠ (.ok ((candidateConfigs []).get ⟨1, by decide⟩), 2) := by
  refine ⟨rfl, rfl, rfl, ?_⟩
  intro h
  simp [s3Try, candidateConfigs, combos, runTry, content, addParam, setParam] at h

/-- C4: when the probe of every candidate fails at the non-fatal stage
(list-objects or put-object), `try` returns the error naming the
destination after exactly as many probe attempts as there are candidates. -/
theorem try_exhausted (base : Params) (dest : String) (outs : List ProbeOutcome)
    (hlen : outs.length = (candidateConfigs base).length)
    (hnf : ∀ x ∈ outs, isNonFatal x = true) :
    s3Try base dest outs
      = (.error (storageUnreachableMsg dest), (candidateConfigs base).length) := by
  rw [s3Try]
  have h2 : (candidateConfigs base).zip outs ++ [] = (candidateConfigs base).zip outs := by
    simp
  rw [← h2, runTry_append_nonFatal dest _ [] (fun z hz => hnf z.2 (List.of_mem_zip hz).2)]
  simp [runTry, List.length_zip, hlen]

/-- Witness for `try_exhausted`: all 7 probes fail on list-objects; the
destination-naming error is returned after 7 attempts. -/
theorem try_exhausted_witness :
    s3Try [] "bucket" (List.replicate 7 (ProbeOutcome.listFail "x"))
      = (.error (storageUnreachableMsg "bucket"), 7) :=
  try_exhausted [] "bucket" (List.replicate 7 (ProbeOutcome.listFail "x"))
    (by decide) (by decide)

/-- C5: within one probe (after any non-fatal prefix), (a) a list-objects
failure is non-fatal to discovery — with a fully successful probe right
after it, `try` still succeeds with the next candidate; (b) a read-back
whose content differs from the written probe content aborts the whole
discovery immediately with the mismatch error, trying no further
candidates; (c) a failure of the probe-object delete likewise propagates
immediately as an error to the caller. -/
theorem try_error_modes (base : Params) (dest : String) (pre post : List ProbeOutcome)
    (hnf : ∀ x ∈ pre, isNonFatal x = true) :
    (∀ e (hk1 : pre.length + 1 < (candidateConfigs base).length),
        s3Try base dest
            (pre ++ ProbeOutcome.listFail e :: ProbeOutcome.readOk content none :: post)
          = (.ok ((candidateConfigs base).get ⟨pre.length + 1, hk1⟩), pre.length + 2))
    ∧ (∀ got, got ≠ content → ∀ hk : pre.length < (candidateConfigs base).length,
        s3Try base dest (pre ++ ProbeOutcome.readOk got none :: post)
          = (.error (mismatchMsg got), pre.length + 1))
    ∧ (∀ e, ∀ hk : pre.length < (candidateConfigs base).length,
        s3Try base dest (pre ++ ProbeOutcome.readOk content (some e) :: post)
          = (.error e, pre.length + 1)) := by
  refine ⟨?_, ?_, ?_⟩
  · intro e hk1
    have hsplit : pre ++ ProbeOutcome.listFail e :: ProbeOutcome.readOk content none :: post
        = (pre ++ [ProbeOutcome.listFail e]) ++ ProbeOutcome.readOk content none :: post := by
      simp
    have hnf2 : ∀ x ∈ pre ++ [ProbeOutcome.listFail e], isNonFatal x = true := by
      intro x hx
      rcases List.mem_append.mp hx with h | h
      · exact hnf x h
      · simp at h
        simp [h, isNonFatal]
    have hlen2 : (pre ++ [ProbeOutcome.listFail e]).length = pre.length + 1 := by simp
    rw [hsplit, s3Try_success_at base dest _ post hnf2 (by rw [hlen2]; exact hk1)]
    simp [hlen2]
  · intro got hgot hk
    rw [s3Try_decompose base dest pre post _ hnf hk]
    simp [runTry, hgot, Nat.add_comm]
  · intro e hk
    rw [s3Try_decompose base dest pre post _ hnf hk]
    simp [runTry, Nat.add_comm]

/-- Witness for `try_error_modes`: list failure then success returns the
second candidate after 2 attempts; a mismatching read-back aborts after 1
attempt; a delete failure aborts after 1 attempt. -/
theorem try_error_modes_witness :
    s3Try [] "bucket" [ProbeOutcome.readOk "bad" none, ProbeOutcome.listFail "x"]
      = (.error (mismatchMsg "bad"), 1) :=
  (try_error_modes [] "bucket" [] [ProbeOutcome.listFail "x"] (by decide)).2.1
    "bad" (by decide) (by decide)

/-- C10: a failure of the probe put-object step is treated like a list
failure — after any non-fatal prefix, a put failure at one candidate
followed by a fully successful probe of the next candidate makes `try`
return that next candidate after one further attempt, instead of aborting
discovery. -/
theorem try_put_failure_continues (base : Params) (dest : String)
    (pre post : List ProbeOutcome) (hnf : ∀ x ∈ pre, isNonFatal x = true)
    (e : String) (hk1 : pre.length + 1 < (candidateConfigs base).length) :
    s3Try base dest
        (pre ++ ProbeOutcome.putFail e :: ProbeOutcome.readOk content none :: post)
      = (.ok ((candidateConfigs base).get ⟨pre.length + 1, hk1⟩), pre.length + 2) := by
  have hsplit : pre ++ ProbeOutcome.putFail e :: ProbeOutcome.readOk content none :: post
      = (pre ++ [ProbeOutcome.putFail e]) ++ ProbeOutcome.readOk content none :: post := by
    simp
  have hnf2 : ∀ x ∈ pre ++ [ProbeOutcome.putFail e], isNonFatal x = true := by
    intro x hx
    rcases List.mem_append.mp hx with h | h
    · exact hnf x h
    · simp at h
      simp [h, isNonFatal]
  have hlen2 : (pre ++ [ProbeOutcome.putFail e]).length = pre.length + 1 := by simp
  rw [hsplit, s3Try_success_at base dest _ post hnf2 (by rw [hlen2]; exact hk1)]
  simp [hlen2]

/-- Witness for `try_put_failure_continues`: a put failure on the first
candidate, then success on the second; the second candidate is returned
after 2 attempts. -/
theorem try_put_failure_continues_witness :
    s3Try [] "bucket" [ProbeOutcome.putFail "x", ProbeOutcome.readOk content none]
      = (.ok ((candidateConfigs []).get ⟨1, by decide⟩), 2) :=
  try_put_failure_continues [] "bucket" [] [] (by decide) "x" (by decide)

/-- `expectedBackupCollections` from `internal/validate/validate.go`. -/
def expectedBackupCollections : Nat := 1

/-- `expectedBackupCount` from `internal/validate/validate.go`. -/
def expectedBackupCount : Nat := 2

/-- `expectedFullBackupCount` from `internal/validate/validate.go`. -/
def expectedFullBackupCount : Nat := 1

/-- `db.TableBackup`: one backup entry, with its kind (full or incremental)
and end time. -/
structure TableBackup where
  full : Bool
  endTime : Nat
deriving DecidableEq

/-- The full-backup counting loop of `checkBackups`. -/
def countFull (info : List TableBackup) : Nat :=
  info.foldl (fun n i => if i.full then n + 1 else n) 0

/-- `Validator.checkBackups` (`internal/validate/backup.go` lines 26-60),
over the outcomes of its database interactions: acquiring a pooled
connection, `ListTableBackups`, and `BackupInfo` for the first collection
filtered to the source table.  (The Go method also records the collection
name in `v.latest`; that assignment has no bearing on the checks.) -/
def checkBackups (acquireRes : Option String)
    (backupsRes : Except String (List String))
    (infoRes : Except String (List TableBackup)) : Except String Unit :=
  match acquireRes with
  | some e => .error e
  | none =>
    match backupsRes with
    | .error e => .error ("failed to list table backups: " ++ e)
    | .ok backups =>
      if backups.length ≠ expectedBackupCollections then
        .error ("expected exactly " ++ toString expectedBackupCollections ++
          " backup collection, got " ++ toString backups.length)
      else
        match infoRes with
        | .error e => .error ("failed to get backup info: " ++ e)
        | .ok info =>
          if info.length ≠ expectedBackupCount then
            .error ("expected exactly " ++ toString expectedBackupCount ++
              " backups (1 full, 1 incremental), got " ++ toString info.length ++ " backups")
          else
            if countFull info ≠ expectedFullBackupCount then
              .error ("expected exactly " ++ toString expectedFullBackupCount ++
                " full backup, got " ++ toString (countFull info))
            else .ok ()

/-- C7: with the database queries succeeding, `checkBackups` succeeds exactly
when there is exactly one backup collection whose entries for the source
table number exactly two, exactly one of them full; and with one collection,
two entries and two full backups it fails citing the exact message
"expected exactly 1 full backup, got 2". -/
theorem checkBackups_spec (bs : List String) (info : List TableBackup) :
    (checkBackups none (.ok bs) (.ok info) = .ok () ↔
      (bs.length = 1 ∧ info.length = 2 ∧ countFull info = 1))
    ∧ (bs.length = 1 → info.length = 2 → countFull info = 2 →
        checkBackups none (.ok bs) (.ok info)
          = .error "expected exactly 1 full backup, got 2") := by
  constructor
  · constructor
    · intro h
      by_cases h1 : bs.length = expectedBackupCollections
      · by_cases h2 : info.length = expectedBackupCount
        · by_cases h3 : countFull info = expectedFullBackupCount
          · exact ⟨h1, h2, h3⟩
          · simp [checkBackups, h1, h2, h3] at h
        · simp [checkBackups, h1, h2] at h
      · simp [checkBackups, h1] at h
    · rintro ⟨h1, h2, h3⟩
      simp [checkBackups, expectedBackupCollections, expectedBackupCount,
        expectedFullBackupCount, h1, h2, h3]
  · intro h1 h2 h3
    simp only [checkBackups, expectedBackupCollections, expectedBackupCount,
      expectedFullBackupCount, h1, h2, h3]
    rfl

/-- Witness for `checkBackups_spec`: one collection with one full and one
incremental entry passes; two full entries produce the exact message. -/
theorem checkBackups_spec_witness :
    checkBackups none (.ok ["collection"])
        (.ok [TableBackup.mk true 2, TableBackup.mk false 1]) = .ok ()
    ∧ checkBackups none (.ok ["collection"])
        (.ok [TableBackup.mk true 2, TableBackup.mk true 1])
      = .error "expected exactly 1 full backup, got 2" :=
  ⟨(checkBackups_spec ["collection"] [TableBackup.mk true 2, TableBackup.mk false 1]).1.mpr
      ⟨by decide, by decide, by decide⟩,
   (checkBackups_spec ["collection"] [TableBackup.mk true 2, TableBackup.mk true 1]).2
      (by decide) (by decide) (by decide)⟩

/-- `db.Stats`: one per-node statistics row.  The orchestrator only passes
these rows through to the report, never inspecting their content, so the
row is represented by an opaque payload. -/
structure Stats where
  payload : Nat
deriving DecidableEq

/-- `validate.Report`: the result of a validation run — the suggested
parameter set and the captured per-node statistics. -/
structure Report where
  suggestedParams : Params
  stats : List Stats
deriving DecidableEq

/-- Outcomes of the effectful calls `Validator.Validate` makes, in program
order: acquiring the pooled connection, `db.NewExternalConn`, the suggested
parameters carried by the external connection, and the result of each
validation step function (`none` is success).  `stopping` models
`ctx.IsStopping()`, checked before each step. -/
structure ValidateInput where
  stopping : Bool
  acquireConnResult : Option String
  extConnResult : Except String Unit
  suggestedParams : Params
  statsResult : Except String (List Stats)
  workloadResult : Option String
  incBackupResult : Option String
  checkBackupsResult : Option String
  restoreResult : Option String
  integrityResult : Option String

/-- The verify-integrity step wrapper of `Validate`
(`internal/validate/validate.go` lines 200-209): a `verifyIntegrity` error
is logged and the step returns nil, so the run is never aborted by it. -/
def verifyIntegrityStep (r : Option String) : Option String :=
  match r with
  | some _ => none
  | none => none

/-- The step table of `Validate` (`internal/validate/validate.go` lines
174-210): step names paired with the step outcome under the given inputs. -/
def validateSteps (inp : ValidateInput) : List (String × Option String) :=
  [("capture initial stats",
      match inp.statsResult with | .ok _ => none | .error e => some e),
   ("workload with backup", inp.workloadResult),
   ("incremental backup", inp.incBackupResult),
   ("check backups", inp.checkBackupsResult),
   ("restore", inp.restoreResult),
   ("verify integrity", verifyIntegrityStep inp.integrityResult)]

/-- The step execution loop of `Validate` (lines 213-220): before each step
the stopping flag is consulted; a failing step aborts the run with its
error wrapped with the step name (`errors.Wrapf`). -/
def runSteps (stopping : Bool) : List (String × Option String) → Except String Unit
  | [] => .ok ()
  | (name, res) :: rest =>
    if stopping then .error "context is stopping"
    else
      match res with
      | some e => .error ("failed during step: " ++ name ++ ": " ++ e)
      | none => runSteps stopping rest

/-- `Validator.Validate` (`internal/validate/validate.go` lines 157-226):
acquire a connection, create the external connection, run the step table,
and on success return the report carrying the suggested parameters and the
stats captured by the first step. -/
def Validate (inp : ValidateInput) : Except String Report :=
  match inp.acquireConnResult with
  | some e => .error e
  | none =>
    match inp.extConnResult with
    | .error e => .error ("failed to create external connection: " ++ e)
    | .ok _ =>
      match runSteps inp.stopping (validateSteps inp) with
      | .error e => .error e
      | .ok _ =>
        .ok { suggestedParams := inp.suggestedParams,
              stats := match inp.statsResult with | .ok s => s | .error _ => [] }

/-- C6: a fingerprint mismatch in the verify-integrity step never aborts the
run — `Validate` still returns the report carrying the suggested parameters
and captured stats, and no error; whereas a fatal error in any earlier step
aborts the run with an error wrapped with the name of that step. -/
theorem validate_integrity_non_fatal (inp : ValidateInput) (st : List Stats) (e : String)
    (hstop : inp.stopping = false)
    (hacq : inp.acquireConnResult = none)
    (hconn : inp.extConnResult = .ok ()) :
    ((inp.statsResult = .ok st ∧ inp.workloadResult = none ∧ inp.incBackupResult = none ∧
        inp.checkBackupsResult = none ∧ inp.restoreResult = none ∧
        inp.integrityResult = some e) →
      Validate inp = .ok { suggestedParams := inp.suggestedParams, stats := st })
    ∧ (inp.statsResult = .error e →
        Validate inp = .error ("failed during step: capture initial stats: " ++ e))
    ∧ (inp.statsResult = .ok st → inp.workloadResult = some e →
        Validate inp = .error ("failed during step: workload with backup: " ++ e))
    ∧ (inp.statsResult = .ok st → inp.workloadResult = none → inp.incBackupResult = some e →
        Validate inp = .error ("failed during step: incremental backup: " ++ e))
    ∧ (inp.statsResult = .ok st → inp.workloadResult = none → inp.incBackupResult = none →
        inp.checkBackupsResult = some e →
        Validate inp = .error ("failed during step: check backups: " ++ e))
    ∧ (inp.statsResult = .ok st → inp.workloadResult = none → inp.incBackupResult = none →
        inp.checkBackupsResult = none → inp.restoreResult = some e →
        Validate inp = .error ("failed during step: restore: " ++ e)) := by
  refine ⟨?_, ?_, ?_, ?_, ?_, ?_⟩
  · rintro ⟨h1, h2, h3, h4, h5, h6⟩
    simp [Validate, validateSteps, runSteps, verifyIntegrityStep,
      hstop, hacq, hconn, h1, h2, h3, h4, h5, h6]
  · intro h1
    simp [Validate, validateSteps, runSteps, hstop, hacq, hconn, h1]
  · intro h1 h2
    simp [Validate, validateSteps, runSteps, hstop, hacq, hconn, h1, h2]
  · intro h1 h2 h3
    simp [Validate, validateSteps, runSteps, hstop, hacq, hconn, h1, h2, h3]
  · intro h1 h2 h3 h4
    simp [Validate, validateSteps, runSteps, hstop, hacq, hconn, h1, h2, h3, h4]
  · intro h1 h2 h3 h4 h5
    simp [Validate, validateSteps, runSteps, hstop, hacq, hconn, h1, h2, h3, h4, h5]

/-- Witness for `validate_integrity_non_fatal`: every step succeeds except
verify-integrity, which reports a mismatch; the report is still returned. -/
theorem validate_integrity_non_fatal_witness :
    Validate { stopping := false, acquireConnResult := none, extConnResult := .ok (),
               suggestedParams := [(RegionParam, "us-east-1")],
               statsResult := .ok [Stats.mk 1],
               workloadResult := none, incBackupResult := none,
               checkBackupsResult := none, restoreResult := none,
               integrityResult := some "integrity check failed" }
      = .ok { suggestedParams := [(RegionParam, "us-east-1")], stats := [Stats.mk 1] } :=
  (validate_integrity_non_fatal
      { stopping := false, acquireConnResult := none, extConnResult := .ok (),
        suggestedParams := [(RegionParam, "us-east-1")],
        statsResult := .ok [Stats.mk 1],
        workloadResult := none, incBackupResult := none,
        checkBackupsResult := none, restoreResult := none,
        integrityResult := some "integrity check failed" }
      [Stats.mk 1] "integrity check failed" rfl rfl rfl).1
    ⟨rfl, rfl, rfl, rfl, rfl, rfl⟩

/-- UTF-8 encoding of one character as byte values, as Go ranges over the
bytes of a string. -/
def utf8Bytes (c : Char) : List Nat :=
  let n := c.toNat
  if n < 128 then [n]
  else if n < 2048 then [192 + n / 64, 128 + n % 64]
  else if n < 65536 then [224 + n / 4096, 128 + (n / 64) % 64, 128 + n % 64]
  else [240 + n / 262144, 128 + (n / 4096) % 64, 128 + (n / 64) % 64, 128 + n % 64]

/-- Go `net/url.shouldEscape` for a query component: the unreserved bytes
A-Z, a-z, 0-9, and the marks -, _, ., ~ stay literal; every other byte is
escaped. -/
def shouldEscape (b : Nat) : Bool :=
  !((65 ≤ b && b ≤ 90) || (97 ≤ b && b ≤ 122) || (48 ≤ b && b ≤ 57)
    || b == 45 || b == 95 || b == 46 || b == 126)

/-- The upper-case hexadecimal digits used by Go `net/url` percent-escaping. -/
def upperhex : List Char :=
  ['0', '1', '2', '3', '4', '5', '6', '7', '8', '9', 'A', 'B', 'C', 'D', 'E', 'F']

/-- Escape one byte as Go `net/url.QueryEscape` does: space becomes `+`,
other escapable bytes become `%XX` with upper-case hex, the rest stay
literal. -/
def escapeByte (b : Nat) : String :=
  if shouldEscape b then
    if b == 32 then "+"
    else String.mk ['%', upperhex.getD (b / 16) '0', upperhex.getD (b % 16) '0']
  else String.mk [Char.ofNat b]

/-- Go `net/url.QueryEscape`: escape every byte of the UTF-8 encoding. -/
def queryEscape (s : String) : String :=
  String.join (((s.data.map utf8Bytes).flatten).map escapeByte)

/-- Ordering of parameter entries by key. -/
def keyLE (a b : String × String) : Prop := a.1 ≤ b.1

instance : DecidableRel keyLE := fun a b => inferInstanceAs (Decidable (a.1 ≤ b.1))

instance : IsTotal (String × String) keyLE := ⟨fun a b => le_total a.1 b.1⟩

instance : IsTrans (String × String) keyLE := ⟨fun _ _ _ h1 h2 => le_trans h1 h2⟩

/-- Modelled from the spec: the `Params` type and its `Iter` method are not
among the source files (`internal/blob/s3.go` only uses them); the spec
fixes iteration order as lexicographic by key, so `Iter` is modelled as
sorting the entries by key. -/
def paramsIter (p : Params) : Params := List.insertionSort keyLE p

/-- One query-string entry, `fmt.Sprintf` with two `QueryEscape` calls in
`escapeValues` (`internal/blob/s3.go` line 183). -/
def escapePair (kv : String × String) : String :=
  queryEscape kv.1 ++ "=" ++ queryEscape kv.2

/-- `s3Store.escapeValues` (`internal/blob/s3.go` lines 174-186): iterate the
parameters in `Iter` order, joining the escaped entries with `&` via the
first-entry flag. -/
def escapeValues (p : Params) : String :=
  ((paramsIter p).foldl
    (fun acc kv =>
      if acc.2 then (acc.1 ++ escapePair kv, false)
      else (acc.1 ++ "&" ++ escapePair kv, false))
    ("", true)).1

/-- Joining a list of strings with the `&` separator. -/
def joinAmp : List String → String
  | [] => ""
  | [s] => s
  | s :: rest => s ++ "&" ++ joinAmp rest

theorem joinAmp_shift (a y : String) (ys : List String) :
    joinAmp ((a ++ "&" ++ y) :: ys) = a ++ "&" ++ joinAmp (y :: ys) := by
  cases ys with
  | nil => rfl
  | cons z zs => simp [joinAmp, String.append_assoc]

theorem escape_foldl_false (ys : List String) :
    ∀ a : String,
      (ys.foldl
        (fun (acc : String × Bool) s =>
          if acc.2 then (acc.1 ++ s, false) else (acc.1 ++ "&" ++ s, false))
        (a, false)).1 = joinAmp (a :: ys) := by
  induction ys with
  | nil => intro a; rfl
  | cons y ys ih =>
      intro a
      rw [List.foldl_cons]
      simp only [Bool.false_eq_true, if_false]
      rw [ih (a ++ "&" ++ y), joinAmp_shift]
      rfl

theorem escape_foldl (l : List String) :
    (l.foldl
      (fun (acc : String × Bool) s =>
        if acc.2 then (acc.1 ++ s, false) else (acc.1 ++ "&" ++ s, false))
      ("", true)).1 = joinAmp l := by
  cases l with
  | nil => rfl
  | cons x xs =>
      rw [List.foldl_cons]
      simp only [if_true]
      rw [escape_foldl_false xs ("" ++ x)]
      simp [String.empty_append]

/-- Strict ordering of parameter entries by key, used for canonicity. -/
def keyLT (a b : String × String) : Prop := a.1 < b.1

instance : IsAntisymm (String × String) keyLT :=
  ⟨fun a b h1 h2 => absurd (lt_trans h1 h2) (lt_irrefl a.1)⟩

theorem pairwise_keyLT_of_sorted_nodup (l : Params) (hs : l.Pairwise keyLE)
    (hn : (l.map Prod.fst).Nodup) : l.Pairwise keyLT := by
  have hne : l.Pairwise (fun a b : String × String => a.1 ≠ b.1) :=
    List.pairwise_map.mp hn
  exact (hs.and hne).imp fun h => lt_of_le_of_ne h.1 h.2

theorem paramsIter_perm_eq (p q : Params) (hpq : p.Perm q)
    (hn : (p.map Prod.fst).Nodup) : paramsIter p = paramsIter q := by
  have hperm : (paramsIter p).Perm (paramsIter q) :=
    ((List.perm_insertionSort keyLE p).trans hpq).trans
      (List.perm_insertionSort keyLE q).symm
  have hnp : ((paramsIter p).map Prod.fst).Nodup :=
    (((List.perm_insertionSort keyLE p).map Prod.fst).nodup_iff).mpr hn
  have hnq : ((paramsIter q).map Prod.fst).Nodup :=
    ((hperm.map Prod.fst).nodup_iff).mp hnp
  exact List.eq_of_perm_of_sorted hperm
    (pairwise_keyLT_of_sorted_nodup _ (List.sorted_insertionSort keyLE p) hnp)
    (pairwise_keyLT_of_sorted_nodup _ (List.sorted_insertionSort keyLE q) hnq)

/-- C9: the escaped query string lists the entries of the parameter set in
`Iter` order joined with the `&` separator, each entry escaped once by
`QueryEscape`; the iterated entries are exactly the entries of the set
(a permutation), sorted lexicographically by key; and for parameter sets
with distinct keys the result is independent of the representation order,
so the produced URL is deterministic. -/
theorem escapeValues_spec (p : Params) :
    escapeValues p = joinAmp ((paramsIter p).map escapePair)
    ∧ (paramsIter p).Perm p
    ∧ (paramsIter p).Pairwise keyLE
    ∧ (∀ q, p.Perm q → (p.map Prod.fst).Nodup → escapeValues p = escapeValues q) := by
  have hfold : ∀ r : Params,
      (r.foldl
        (fun acc kv =>
          if acc.2 then (acc.1 ++ escapePair kv, false)
          else (acc.1 ++ "&" ++ escapePair kv, false))
        (("" : String), true)).1 = joinAmp (r.map escapePair) := by
    intro r
    rw [← escape_foldl (r.map escapePair), List.foldl_map]
  refine ⟨hfold (paramsIter p), List.perm_insertionSort keyLE p,
    List.sorted_insertionSort keyLE p, ?_⟩
  intro q hpq hn
  show (_ : String × Bool).1 = (_ : String × Bool).1
  rw [paramsIter_perm_eq p q hpq hn]

/-- Witness for `escapeValues_spec`: the escaped query string is invariant
under reordering the entries of a two-entry parameter set. -/
theorem escapeValues_spec_witness :
    escapeValues [(RegionParam, "us east"), (AccountParam, "AKIA")]
      = escapeValues [(AccountParam, "AKIA"), (RegionParam, "us east")] :=
  (escapeValues_spec [(RegionParam, "us east"), (AccountParam, "AKIA")]).2.2.2
    [(AccountParam, "AKIA"), (RegionParam, "us east")] (by decide) (by decide)
